import Mathlib

/-!
Formal model of the Vehicle-Route-Simulator core: the geo-math utilities
(`calculateDistanceKm`, `calculateTotalDistance`, `calculateSpeedKmH` from
the utils module), the route-loading validation (`loadData` in
VehicleMap.jsx), the playback state transitions (the interval tick effect,
`togglePlay` and `resetSimulation` in VehicleMap.jsx), and the animated
marker interpolation (`animate` in AnimatedMarker.jsx).

Modelling conventions:
- JavaScript numbers are modelled as real numbers `ℝ`; `Math.sqrt` is
  `Real.sqrt`, `Math.atan2 y x` is the argument of the complex number
  `x + y*I`, and `toFixed(2)` is modelled by the numeric value of the
  produced string, namely rounding to the nearest multiple of 1/100.
- A timestamp is represented by its epoch-millisecond value, i.e. the
  number `new Date(timestamp).getTime()` that the source computes from
  the ISO-8601 string.
- Functions that would throw a TypeError on a missing array element
  return `none` (`Option`); functions returning either a numeric string
  or the sentinel string "N/A" return `Option ℝ`, with `none` standing
  for "N/A" and `some r` for the string whose numeric value is `r`
  (so "0.00" is `some 0`).
-/

/-- A route point as consumed by the geo-math utilities: latitude and
longitude in degrees, and the timestamp represented by its
epoch-millisecond value (the result of `new Date(ts).getTime()`). -/
structure RoutePoint where
  latitude : ℝ
  longitude : ℝ
  timestampMs : ℤ

instance : Inhabited RoutePoint := ⟨⟨0, 0, 0⟩⟩

/-- Degrees to radians, mirroring `toRad` in the utils module. -/
noncomputable def toRad (degrees : ℝ) : ℝ := degrees * (Real.pi / 180)

/-- JavaScript `Math.atan2(y, x)`: the argument of the complex number
`x + y*I` (range (-π, π], matching `Math.atan2` on non-NaN input). -/
noncomputable def atan2 (y x : ℝ) : ℝ := Complex.arg { re := x, im := y }

/-- The intermediate value `a` of the Haversine formula in
`calculateDistanceKm`: `sin²(dLat/2) + cos(lat1)·cos(lat2)·sin²(dLon/2)`. -/
noncomputable def haversineA (lat1 lon1 lat2 lon2 : ℝ) : ℝ :=
  Real.sin (toRad (lat2 - lat1) / 2) * Real.sin (toRad (lat2 - lat1) / 2) +
    Real.cos (toRad lat1) * Real.cos (toRad lat2) *
      Real.sin (toRad (lon2 - lon1) / 2) * Real.sin (toRad (lon2 - lon1) / 2)

/-- Haversine great-circle distance in km, mirroring `calculateDistanceKm`:
Earth radius `R = 6371`, `c = 2 * atan2(sqrt a, sqrt (1-a))`, result `R * c`. -/
noncomputable def calculateDistanceKm (lat1 lon1 lat2 lon2 : ℝ) : ℝ :=
  6371 * (2 * atan2 (Real.sqrt (haversineA lat1 lon1 lat2 lon2))
    (Real.sqrt (1 - haversineA lat1 lon1 lat2 lon2)))

/-- The Haversine distance between two route points, i.e. the source call
`calculateDistanceKm(p.latitude, p.longitude, q.latitude, q.longitude)`. -/
noncomputable def pointDist (p q : RoutePoint) : ℝ :=
  calculateDistanceKm p.latitude p.longitude q.latitude q.longitude

/-- Numeric value of JavaScript `x.toFixed(2)`: `x` rounded to the nearest
multiple of 1/100. -/
noncomputable def toFixed2 (x : ℝ) : ℝ := (round (x * 100) : ℤ) / 100

/-- The summation loop of `calculateTotalDistance`:
`for (i = 1; i <= n; i++) total += calculateDistanceKm(route[i-1], route[i])`.
A missing array element (out-of-bounds access, which in the source throws a
TypeError on `.latitude`) is modelled as `none`. -/
noncomputable def sumConsecutive (routeData : List RoutePoint) : ℕ → Option ℝ
  | 0 => some 0
  | n + 1 =>
    match sumConsecutive routeData n, routeData[n]?, routeData[n + 1]? with
    | some acc, some prev, some curr => some (acc + pointDist prev curr)
    | _, _, _ => none

/-- Mirrors `calculateTotalDistance(routeData, currentIndex)`: returns the
number 0 when `routeData` is null/undefined (`!routeData`) or
`currentIndex === 0`, otherwise the loop total formatted with `toFixed(2)`.
`none` models the TypeError thrown on an out-of-bounds element access. -/
noncomputable def calculateTotalDistance
    (routeData : Option (List RoutePoint)) (currentIndex : ℕ) : Option ℝ :=
  match routeData with
  | none => some 0
  | some route =>
    if currentIndex = 0 then some 0
    else (sumConsecutive route currentIndex).map toFixed2

/-- JavaScript array indexing `l[i]` with a possibly negative integer index:
`undefined` (here `none`) when out of bounds. -/
def jsGet {α : Type} (l : List α) (i : ℤ) : Option α :=
  if 0 ≤ i then l[i.toNat]? else none

/-- Mirrors `calculateSpeedKmH(currentIndex, routeData)`. Returns
`some 0` for the string "0.00" (index 0, short route, or a missing
previous/current point), `none` for the sentinel string "N/A"
(non-positive elapsed time), and otherwise `some` of the numeric value of
`speed.toFixed(2)` where `speed = distanceKm / timeDeltaHours`. -/
noncomputable def calculateSpeedKmH
    (currentIndex : ℤ) (routeData : List RoutePoint) : Option ℝ :=
  if currentIndex = 0 ∨ routeData.length ≤ 1 then some 0
  else
    match jsGet routeData currentIndex, jsGet routeData (currentIndex - 1) with
    | some currPoint, some prevPoint =>
      if ((currPoint.timestampMs - prevPoint.timestampMs : ℤ) : ℝ) / (1000 * 60 * 60) ≤ 0 then
        none
      else
        some (toFixed2 (pointDist prevPoint currPoint /
          (((currPoint.timestampMs - prevPoint.timestampMs : ℤ) : ℝ) / (1000 * 60 * 60))))
    | _, _ => some 0

/-- The playback state owned by VehicleMap: `currentIndex` and `isPlaying`
(the speed multiplier only affects the tick cadence, not these fields). -/
structure PlaybackState where
  currentIndex : ℕ
  isPlaying : Bool
deriving DecidableEq

/-- Component-mount state: `currentIndex = 0`, `isPlaying = false`. -/
def initialState : PlaybackState := ⟨0, false⟩

/-- The user commands and timer events that mutate the playback state. -/
inductive PlaybackOp
  | togglePlay
  | reset
  | setSpeed (multiplier : ℚ)
  | tick

/-- One playback transition of VehicleMap. `togglePlay` flips `isPlaying`;
`resetSimulation` stops and rewinds; changing speed only re-creates the
interval; a `tick` fires only while the interval exists
(`isPlaying && routeData.length > 0`) and runs the functional update:
if `prevIndex >= routeData.length - 1` stop playing and keep the index,
else increment the index. -/
def step (len : ℕ) (s : PlaybackState) : PlaybackOp → PlaybackState
  | .togglePlay => { s with isPlaying := !s.isPlaying }
  | .reset => { currentIndex := 0, isPlaying := false }
  | .setSpeed _ => s
  | .tick =>
    if s.isPlaying = true ∧ 0 < len then
      if len - 1 ≤ s.currentIndex then { s with isPlaying := false }
      else { s with currentIndex := s.currentIndex + 1 }
    else s

/-- The playback state after a sequence of operations from mount. -/
def runOps (len : ℕ) (ops : List PlaybackOp) : PlaybackState :=
  List.foldl (step len) initialState ops

/-- A JavaScript value as far as the route validation inspects it: a number
(`none` inside stands for NaN), a string, or undefined. -/
inductive JsVal
  | num (val : Option ℚ)
  | str (s : String)
  | undef
deriving DecidableEq

/-- A raw fetched route point before validation: the three fields the
source reads, each an arbitrary JavaScript value. -/
structure RawPoint where
  latitude : JsVal
  longitude : JsVal
  timestamp : JsVal
deriving DecidableEq

/-- JavaScript `typeof v === 'number'`. -/
def jsTypeofNumber : JsVal → Bool
  | .num _ => true
  | _ => false

/-- JavaScript `isNaN(v)` for the values the validator can reach: false on
an actual number, true on NaN and on `undefined` (which coerces to NaN).
For strings `isNaN` would coerce, but in `validPoint` this test sits behind
the `typeof === 'number'` guard, so only numbers ever reach it. -/
def jsIsNaN : JsVal → Bool
  | .num (some _) => false
  | _ => true

/-- JavaScript `v >= bound` for the values the validator can reach:
comparisons involving NaN or `undefined` are false. (String coercion never
applies in `validPoint` thanks to the preceding `typeof` guard.) -/
def jsGE (v : JsVal) (bound : ℚ) : Bool :=
  match v with
  | .num (some x) => decide (bound ≤ x)
  | _ => false

/-- JavaScript `v <= bound`, same conventions as `jsGE`. -/
def jsLE (v : JsVal) (bound : ℚ) : Bool :=
  match v with
  | .num (some x) => decide (x ≤ bound)
  | _ => false

/-- The per-point predicate of `loadData`: latitude and longitude are
numbers, not NaN, and within [-90, 90] resp. [-180, 180]. The timestamp
field is not inspected. -/
def validPoint (point : RawPoint) : Bool :=
  jsTypeofNumber point.latitude && jsTypeofNumber point.longitude &&
    !jsIsNaN point.latitude && !jsIsNaN point.longitude &&
    jsGE point.latitude (-90) && jsLE point.latitude 90 &&
    jsGE point.longitude (-180) && jsLE point.longitude 180

/-- The successfully parsed JSON body handed to the validation step of
`loadData`: either an array of points or some non-array value. -/
inductive FetchedJson
  | arr (data : List RawPoint)
  | notArray

/-- The validation step of `loadData`: reject a non-array body, check
every point with `validPoint`, and either store the whole route
(`setRouteData data`) or surface an error message (`setError`). -/
def loadData : FetchedJson → Except String (List RawPoint)
  | .notArray => .error "Route data must be an array"
  | .arr data =>
    if data.all validPoint then .ok data
    else .error "Invalid coordinates in route data"

/-- Spec-side predicate for claim C2, following the spec's words: the
`timestamp` field must be an ISO-8601 string parseable to a datetime.
Stated here as the necessary condition that the field is a string at all;
the source's `loadData` never inspects the field. -/
def timestampIsString (point : RawPoint) : Bool :=
  match point.timestamp with
  | .str _ => true
  | _ => false

/-- A geographic coordinate pair as handled by AnimatedMarker. -/
structure LatLng where
  lat : ℝ
  lng : ℝ
deriving Inhabited

/-- One frame of the `animate` callback in AnimatedMarker.jsx, at a given
elapsed time: `progress = min(1, elapsedTime / duration)`; the marker is
set to the linear interpolation; if `progress < 1` another frame is
requested (flag `true`), else the marker is set to the exact
`endLatLng` and the animation stops (flag `false`). Returns the marker
position after the frame and whether the animation continues. -/
noncomputable def animateFrame (startLatLng endLatLng : LatLng) (duration elapsedTime : ℝ) :
    LatLng × Bool :=
  if min 1 (elapsedTime / duration) < 1 then
    ({ lat := startLatLng.lat + (endLatLng.lat - startLatLng.lat) * min 1 (elapsedTime / duration),
       lng := startLatLng.lng + (endLatLng.lng - startLatLng.lng) * min 1 (elapsedTime / duration) },
     true)
  else (endLatLng, false)

/-- Runs the `animate` frame recursion over a list of frame elapsed times,
threading the marker position; stops early when a frame completes the
transition. If the frame list runs out first the animation is still in
flight and the marker keeps its last interpolated position. -/
noncomputable def runFrames (startLatLng endLatLng : LatLng) (duration : ℝ) :
    List ℝ → LatLng → LatLng
  | [], currentPos => currentPos
  | elapsedTime :: rest, _ =>
    let frame := animateFrame startLatLng endLatLng duration elapsedTime
    if frame.2 then runFrames startLatLng endLatLng duration rest frame.1
    else frame.1

/-- The position-update effect of AnimatedMarker for one new `position`:
if `lastPosition.current` is unset (first call) the marker jumps straight
to the target and no animation starts; otherwise the frame recursion runs
from the marker's current position. Returns the final marker position and
whether an animation was started. -/
noncomputable def markerEffect (lastPosition : Option LatLng) (markerPos position : LatLng)
    (duration : ℝ) (frames : List ℝ) : LatLng × Bool :=
  match lastPosition with
  | none => (position, false)
  | some _ => (runFrames markerPos position duration frames markerPos, true)

/-- A concrete two-point route with strictly increasing timestamps
(one minute apart), used to instantiate the general theorems. -/
def witnessRouteA : List RoutePoint :=
  [{ latitude := 17, longitude := 78, timestampMs := 1000 },
   { latitude := 18, longitude := 79, timestampMs := 61000 }]

/-- A concrete two-point route whose two timestamps are equal, used to
instantiate the stale-timestamp theorems. -/
def witnessRouteB : List RoutePoint :=
  [{ latitude := 17, longitude := 78, timestampMs := 1000 },
   { latitude := 18, longitude := 79, timestampMs := 1000 }]

/-- A raw point with in-range numeric coordinates whose timestamp field is
`undefined` — not a string, let alone an ISO-8601 datetime. -/
def badTimestampPoint : RawPoint :=
  { latitude := JsVal.num (some 17), longitude := JsVal.num (some 78),
    timestamp := JsVal.undef }

/-- A raw point that passes validation, with a string timestamp. -/
def goodPoint : RawPoint :=
  { latitude := JsVal.num (some 17), longitude := JsVal.num (some 78),
    timestamp := JsVal.str "2024-07-20T10:00:00Z" }

/-- A raw point whose latitude 95 is out of range. -/
def invalidLatPoint : RawPoint :=
  { latitude := JsVal.num (some 95), longitude := JsVal.num (some 78),
    timestamp := JsVal.str "2024-07-20T10:00:00Z" }

/-- Any single playback step keeps the index within the last route index. -/
theorem step_index_le (len : ℕ) (s : PlaybackState) (op : PlaybackOp)
    (h : s.currentIndex ≤ len - 1) : (step len s op).currentIndex ≤ len - 1 := by
  cases op with
  | togglePlay => simpa [step] using h
  | reset => simp [step]
  | setSpeed m => simpa [step] using h
  | tick =>
    unfold step
    split_ifs with h1 h2
    · simpa using h
    · simp only [not_le] at h2
      simp only []
      omega
    · simpa using h

/-- Folding playback steps from any in-bounds state stays in bounds. -/
theorem foldl_step_index_le (len : ℕ) (ops : List PlaybackOp) :
    ∀ s : PlaybackState, s.currentIndex ≤ len - 1 →
      (List.foldl (step len) s ops).currentIndex ≤ len - 1 := by
  induction ops with
  | nil => intro s h; simpa using h
  | cons op rest ih => intro s h; exact ih _ (step_index_le len s op h)

/-- Claim C1: for every loaded route and every sequence of play, pause,
reset, set-speed and tick operations, `currentIndex` stays within
[0, len-1]; a tick at the last index does not increment it and, while
playing, forces `isPlaying = false`. -/
theorem playback_state_invariant (len : ℕ) (hlen : 0 < len) (ops : List PlaybackOp) :
    (runOps len ops).currentIndex ≤ len - 1 ∧
      ∀ s : PlaybackState, s.isPlaying = true → s.currentIndex = len - 1 →
        (step len s PlaybackOp.tick).currentIndex = s.currentIndex ∧
          (step len s PlaybackOp.tick).isPlaying = false := by
  constructor
  · exact foldl_step_index_le len ops initialState (by simp [initialState])
  · intro s hp hi
    unfold step
    rw [if_pos ⟨hp, hlen⟩, if_pos (le_of_eq hi.symm)]
    simp

/-- Concrete instance of claim C1 on a two-point route: play then two
ticks; the index bound and the stop-at-end tick behaviour hold. -/
theorem playback_state_invariant_witness :
    (runOps 2 [PlaybackOp.togglePlay, PlaybackOp.tick, PlaybackOp.tick]).currentIndex ≤ 1 ∧
      ∀ s : PlaybackState, s.isPlaying = true → s.currentIndex = 1 →
        (step 2 s PlaybackOp.tick).currentIndex = s.currentIndex ∧
          (step 2 s PlaybackOp.tick).isPlaying = false :=
  playback_state_invariant 2 (by decide)
    [PlaybackOp.togglePlay, PlaybackOp.tick, PlaybackOp.tick]

/-- Claim C2 counterexample: a route whose only point has valid numeric
coordinates but an `undefined` timestamp (not an ISO-8601 string, not even
a string) is accepted by `loadData`, contradicting the claim that
acceptance requires a parseable ISO-8601 timestamp on every point. -/
theorem loadData_accepts_nonstring_timestamp :
    loadData (FetchedJson.arr [badTimestampPoint]) = Except.ok [badTimestampPoint] ∧
      timestampIsString badTimestampPoint = false := by
  exact ⟨rfl, rfl⟩

/-- Claim C2 (amended): `loadData` accepts exactly the array bodies all of
whose points have numeric, non-NaN, in-range latitude and longitude — the
timestamp field is never inspected — and any array containing a single
invalid point is rejected with an error. -/
theorem loadData_validates_coordinates_only (d : FetchedJson) (pts : List RawPoint) :
    (loadData d = Except.ok pts ↔ d = FetchedJson.arr pts ∧ pts.all validPoint = true) ∧
      ∀ data : List RawPoint, (∃ p ∈ data, validPoint p = false) →
        loadData (FetchedJson.arr data) = Except.error "Invalid coordinates in route data" := by
  constructor
  · cases d with
    | notArray => simp [loadData]
    | arr data =>
      simp only [loadData]
      by_cases h : data.all validPoint = true
      · rw [if_pos h]
        constructor
        · intro he
          cases he
          exact ⟨rfl, h⟩
        · rintro ⟨he, _⟩
          cases he
          rfl
      · rw [if_neg h]
        constructor
        · intro he
          cases he
        · rintro ⟨he, hall⟩
          cases he
          exact absurd hall h
  · rintro data ⟨p, hp, hv⟩
    simp only [loadData]
    rw [if_neg]
    simp only [List.all_eq_true, not_forall]
    exact ⟨p, hp, by simp [hv]⟩

/-- Concrete instance of the amended claim C2: a valid singleton route is
accepted; a route with latitude 95 is rejected with the error message. -/
theorem loadData_validates_coordinates_only_witness :
    loadData (FetchedJson.arr [goodPoint]) = Except.ok [goodPoint] ∧
      loadData (FetchedJson.arr [invalidLatPoint]) =
        Except.error "Invalid coordinates in route data" := by
  constructor
  · exact (loadData_validates_coordinates_only (FetchedJson.arr [goodPoint]) [goodPoint]).1.mpr
      ⟨rfl, by decide⟩
  · exact (loadData_validates_coordinates_only (FetchedJson.arr [goodPoint]) [goodPoint]).2
      [invalidLatPoint] ⟨invalidLatPoint, by decide, by decide⟩

/-- Math.atan2 of a non-negative first argument is non-negative (the
argument of a complex number with non-negative imaginary part lies in
[0, π]). -/
theorem atan2_nonneg (y x : ℝ) (hy : 0 ≤ y) : 0 ≤ atan2 y x := by
  unfold atan2
  exact Complex.arg_nonneg_iff.mpr hy

/-- The Haversine distance of the source is non-negative. -/
theorem calculateDistanceKm_nonneg (lat1 lon1 lat2 lon2 : ℝ) :
    0 ≤ calculateDistanceKm lat1 lon1 lat2 lon2 := by
  unfold calculateDistanceKm
  have h : 0 ≤ atan2 (Real.sqrt (haversineA lat1 lon1 lat2 lon2))
      (Real.sqrt (1 - haversineA lat1 lon1 lat2 lon2)) :=
    atan2_nonneg _ _ (Real.sqrt_nonneg _)
  nlinarith [h]

/-- Distance between two route points is non-negative. -/
theorem pointDist_nonneg (p q : RoutePoint) : 0 ≤ pointDist p q :=
  calculateDistanceKm_nonneg _ _ _ _

/-- Rounding to two decimal places is monotone. -/
theorem toFixed2_mono {x y : ℝ} (h : x ≤ y) : toFixed2 x ≤ toFixed2 y := by
  unfold toFixed2
  have hr : round (x * 100) ≤ round (y * 100) := by
    rw [round_eq, round_eq]
    exact Int.floor_le_floor (by linarith)
  exact div_le_div_of_nonneg_right (by exact_mod_cast hr) (by norm_num)

/-- Rounding to two decimal places preserves non-negativity. -/
theorem toFixed2_nonneg {x : ℝ} (h : 0 ≤ x) : 0 ≤ toFixed2 x := by
  have h2 := toFixed2_mono h
  simpa [toFixed2] using h2

/-- The summation loop computes, for an in-bounds index, the mathematical
sum of consecutive-pair distances. -/
theorem sumConsecutive_eq_sum (route : List RoutePoint) (n : ℕ) (h : n < route.length) :
    sumConsecutive route n =
      some (∑ i ∈ Finset.range n,
        pointDist (route.getD i default) (route.getD (i + 1) default)) := by
  induction n with
  | zero => simp [sumConsecutive]
  | succ n ih =>
    have hn : n < route.length := Nat.lt_of_succ_lt h
    rw [sumConsecutive, ih hn, List.getElem?_eq_getElem hn, List.getElem?_eq_getElem h]
    simp only [Finset.sum_range_succ]
    rw [List.getD_eq_getElem route default hn, List.getD_eq_getElem route default h]

/-- The summation loop succeeds exactly when the index is zero or within
bounds. -/
theorem sumConsecutive_isSome_iff (route : List RoutePoint) (n : ℕ) :
    (sumConsecutive route n).isSome = true ↔ (n = 0 ∨ n < route.length) := by
  by_cases h0 : n = 0
  · subst h0
    simp [sumConsecutive]
  · by_cases hlt : n < route.length
    · rw [sumConsecutive_eq_sum route n hlt]
      simp [hlt]
    · obtain ⟨m, rfl⟩ : ∃ m, n = m + 1 := ⟨n - 1, by omega⟩
      rw [sumConsecutive]
      rw [List.getElem?_eq_none (show route.length ≤ m + 1 by omega)]
      cases hsc : sumConsecutive route m <;> cases hp : route[m]? <;> simp <;> omega

/-- Claim C3: `calculateTotalDistance` returns 0 when the route is absent
or the index is 0, and otherwise the sum of the Haversine distances of
consecutive pairs up to the index, rounded to 2 decimal places. -/
theorem totalDistance_correct (route : List RoutePoint) (uptoIndex : ℕ)
    (h : uptoIndex < route.length) :
    calculateTotalDistance none uptoIndex = some 0 ∧
      calculateTotalDistance (some route) 0 = some 0 ∧
      (uptoIndex ≠ 0 → calculateTotalDistance (some route) uptoIndex =
        some (toFixed2 (∑ i ∈ Finset.range uptoIndex,
          pointDist (route.getD i default) (route.getD (i + 1) default)))) := by
  refine ⟨rfl, rfl, fun h0 => ?_⟩
  simp only [calculateTotalDistance]
  rw [if_neg h0, sumConsecutive_eq_sum route uptoIndex h]
  rfl

/-- Concrete instance of claim C3 on the two-point witness route at
index 1. -/
theorem totalDistance_correct_witness :
    calculateTotalDistance none 1 = some 0 ∧
      calculateTotalDistance (some witnessRouteA) 0 = some 0 ∧
      (1 ≠ 0 → calculateTotalDistance (some witnessRouteA) 1 =
        some (toFixed2 (∑ i ∈ Finset.range 1,
          pointDist (witnessRouteA.getD i default) (witnessRouteA.getD (i + 1) default)))) :=
  totalDistance_correct witnessRouteA 1 (by decide)

/-- Claim C4: the numeric value of `calculateTotalDistance` is monotone
non-decreasing in the index argument, for indices within bounds. -/
theorem totalDistance_monotone (route : List RoutePoint) (i j : ℕ) (hij : i ≤ j)
    (hj : j < route.length) :
    ∀ vi vj, calculateTotalDistance (some route) i = some vi →
      calculateTotalDistance (some route) j = some vj → vi ≤ vj := by
  intro vi vj hvi hvj
  have hi : i < route.length := lt_of_le_of_lt hij hj
  have hSmono : (∑ k ∈ Finset.range i, pointDist (route.getD k default) (route.getD (k + 1) default)) ≤
      ∑ k ∈ Finset.range j, pointDist (route.getD k default) (route.getD (k + 1) default) :=
    Finset.sum_le_sum_of_subset_of_nonneg (Finset.range_subset.mpr hij)
      (fun k _ _ => pointDist_nonneg _ _)
  by_cases hi0 : i = 0
  · subst hi0
    simp only [calculateTotalDistance, if_true] at hvi
    cases hvi
    by_cases hj0 : j = 0
    · subst hj0
      simp only [calculateTotalDistance, if_true] at hvj
      cases hvj
      exact le_refl 0
    · simp only [calculateTotalDistance] at hvj
      rw [if_neg hj0, sumConsecutive_eq_sum route j hj] at hvj
      cases hvj
      exact toFixed2_nonneg (Finset.sum_nonneg fun k _ => pointDist_nonneg _ _)
  · have hj0 : j ≠ 0 := by omega
    simp only [calculateTotalDistance] at hvi hvj
    rw [if_neg hi0, sumConsecutive_eq_sum route i hi] at hvi
    rw [if_neg hj0, sumConsecutive_eq_sum route j hj] at hvj
    cases hvi
    cases hvj
    exact toFixed2_mono hSmono

/-- Concrete instance of claim C4 on the two-point witness route at
indices 0 and 1: the value at index 0 is at most the value at index 1. -/
theorem totalDistance_monotone_witness :
    (0 : ℝ) ≤ toFixed2 (∑ i ∈ Finset.range 1,
      pointDist (witnessRouteA.getD i default) (witnessRouteA.getD (i + 1) default)) :=
  totalDistance_monotone witnessRouteA 0 1 (by decide) (by decide) 0
    (toFixed2 (∑ i ∈ Finset.range 1,
      pointDist (witnessRouteA.getD i default) (witnessRouteA.getD (i + 1) default)))
    rfl
    (by simp only [calculateTotalDistance]
        rw [if_neg (by decide : ¬(1 = 0)), sumConsecutive_eq_sum witnessRouteA 1 (by decide)]
        rfl)

/-- Claim C9: `calculateTotalDistance` on a present route succeeds exactly
when the index is zero or at most the last route index; any non-zero index
past the end (including any non-zero index on an empty array) hits a
missing element and fails. -/
theorem totalDistance_totality (route : List RoutePoint) (currentIndex : ℕ) :
    (calculateTotalDistance (some route) currentIndex).isSome = true ↔
      (currentIndex = 0 ∨ currentIndex < route.length) := by
  simp only [calculateTotalDistance]
  by_cases h : currentIndex = 0
  · simp [h]
  · rw [if_neg h, Option.isSome_map']
    exact sumConsecutive_isSome_iff route currentIndex

/-- A negative JavaScript index reads `undefined`. -/
theorem jsGet_neg {α : Type} (l : List α) (i : ℤ) (h : i < 0) : jsGet l i = none := by
  unfold jsGet
  rw [if_neg (by omega)]

/-- For a non-negative index, JavaScript indexing is list indexing. -/
theorem jsGet_nonneg_eq {α : Type} (l : List α) (i : ℤ) (h : 0 ≤ i) :
    jsGet l i = l[i.toNat]? := if_pos h

/-- An index at or past the array length reads `undefined`. -/
theorem jsGet_too_big {α : Type} (l : List α) (i : ℤ) (h : (l.length : ℤ) ≤ i) :
    jsGet l i = none := by
  unfold jsGet
  rw [if_pos (by omega)]
  exact List.getElem?_eq_none (by omega)

/-- When both array reads of `calculateSpeedKmH` succeed, the function is
the elapsed-time branch on the two points read. -/
theorem calculateSpeedKmH_some_some (i : ℤ) (route : List RoutePoint)
    (hne : ¬(i = 0 ∨ route.length ≤ 1)) (c p : RoutePoint)
    (hc : jsGet route i = some c) (hp : jsGet route (i - 1) = some p) :
    calculateSpeedKmH i route =
      if ((c.timestampMs - p.timestampMs : ℤ) : ℝ) / (1000 * 60 * 60) ≤ 0 then none
      else
        some (toFixed2 (pointDist p c /
          (((c.timestampMs - p.timestampMs : ℤ) : ℝ) / (1000 * 60 * 60)))) := by
  unfold calculateSpeedKmH
  rw [if_neg hne, hc, hp]

/-- Division by the ms-per-hour constant preserves the sign test. -/
theorem elapsed_div_nonpos_iff (d : ℤ) :
    ((d : ℝ) / (1000 * 60 * 60) ≤ 0 ↔ d ≤ 0) := by
  rw [div_le_iff₀ (by norm_num : (0:ℝ) < 1000 * 60 * 60), zero_mul]
  exact Int.cast_nonpos

/-- The in-bounds array reads of `calculateSpeedKmH` for an index in
[1, len). -/
theorem jsGet_speed_reads (route : List RoutePoint) (i : ℤ)
    (h1 : 1 ≤ i) (h2 : i < (route.length : ℤ)) :
    jsGet route i = some (route.getD i.toNat default) ∧
      jsGet route (i - 1) = some (route.getD (i.toNat - 1) default) := by
  have hiN : i.toNat < route.length := by omega
  have hiN1 : i.toNat - 1 < route.length := by omega
  have ht : (i - 1).toNat = i.toNat - 1 := by omega
  constructor
  · rw [jsGet_nonneg_eq route i (by omega), List.getElem?_eq_getElem hiN,
      List.getD_eq_getElem route default hiN]
  · rw [jsGet_nonneg_eq route (i - 1) (by omega), ht, List.getElem?_eq_getElem hiN1,
      List.getD_eq_getElem route default hiN1]

/-- Claim C5: for a route with more than one point and an in-bounds index
at least 1, `calculateSpeedKmH` returns the "N/A" sentinel exactly when
the elapsed time between the previous and current timestamps is
non-positive, and never fails in that case. -/
theorem speed_na_iff_nonpositive_elapsed (route : List RoutePoint) (i : ℤ)
    (hlen : 1 < route.length) (h1 : 1 ≤ i) (h2 : i < (route.length : ℤ)) :
    (calculateSpeedKmH i route = none ↔
      (route.getD i.toNat default).timestampMs ≤
        (route.getD (i.toNat - 1) default).timestampMs) := by
  obtain ⟨hc, hp⟩ := jsGet_speed_reads route i h1 h2
  have hne : ¬(i = 0 ∨ route.length ≤ 1) := by omega
  rw [calculateSpeedKmH_some_some i route hne _ _ hc hp]
  by_cases hd : (((route.getD i.toNat default).timestampMs -
      (route.getD (i.toNat - 1) default).timestampMs : ℤ) : ℝ) / (1000 * 60 * 60) ≤ 0
  · rw [if_pos hd]
    have hle := (elapsed_div_nonpos_iff _).mp hd
    exact ⟨fun _ => by omega, fun _ => rfl⟩
  · rw [if_neg hd]
    constructor
    · intro hcontra
      exact absurd hcontra (by simp)
    · intro hle
      exact absurd ((elapsed_div_nonpos_iff _).mpr (by omega)) hd

/-- Concrete instance of claim C5: equal consecutive timestamps at index 1
yield "N/A". -/
theorem speed_na_iff_nonpositive_elapsed_witness :
    (calculateSpeedKmH 1 witnessRouteB = none ↔
      (witnessRouteB.getD 1 default).timestampMs ≤
        (witnessRouteB.getD 0 default).timestampMs) :=
  speed_na_iff_nonpositive_elapsed witnessRouteB 1 (by decide) (by decide) (by decide)

/-- Claim C6: `calculateSpeedKmH` returns "0.00" when the index is 0 or
the route has at most one point; otherwise, for an in-bounds index with
positive elapsed time, it returns the Haversine distance divided by the
elapsed time in hours, rounded to 2 decimal places. -/
theorem speed_spec (route : List RoutePoint) (i : ℤ) :
    ((i = 0 ∨ route.length ≤ 1) → calculateSpeedKmH i route = some 0) ∧
      (1 ≤ i → i < (route.length : ℤ) →
        (route.getD (i.toNat - 1) default).timestampMs <
          (route.getD i.toNat default).timestampMs →
        calculateSpeedKmH i route =
          some (toFixed2 (pointDist (route.getD (i.toNat - 1) default)
              (route.getD i.toNat default) /
            ((((route.getD i.toNat default).timestampMs -
                (route.getD (i.toNat - 1) default).timestampMs : ℤ) : ℝ) /
              (1000 * 60 * 60))))) := by
  constructor
  · intro h
    unfold calculateSpeedKmH
    rw [if_pos h]
  · intro h1 h2 hts
    obtain ⟨hc, hp⟩ := jsGet_speed_reads route i h1 h2
    have hne : ¬(i = 0 ∨ route.length ≤ 1) := by omega
    rw [calculateSpeedKmH_some_some i route hne _ _ hc hp]
    rw [if_neg (fun hd => by have := (elapsed_div_nonpos_iff _).mp hd; omega)]

/-- Concrete instance of claim C6: index 0 gives "0.00"; index 1 on the
one-minute-apart witness route gives the rounded distance over hours. -/
theorem speed_spec_witness :
    calculateSpeedKmH 0 witnessRouteA = some 0 ∧
      calculateSpeedKmH 1 witnessRouteA =
        some (toFixed2 (pointDist (witnessRouteA.getD 0 default)
            (witnessRouteA.getD 1 default) /
          ((((witnessRouteA.getD 1 default).timestampMs -
              (witnessRouteA.getD 0 default).timestampMs : ℤ) : ℝ) /
            (1000 * 60 * 60)))) := by
  constructor
  · exact (speed_spec witnessRouteA 0).1 (Or.inl rfl)
  · exact (speed_spec witnessRouteA 1).2 (by decide) (by decide) (by decide)

/-- Claim C10: for a route with more than one point, any integer index
outside [0, len-1] (negative or past the last index) makes
`calculateSpeedKmH` return "0.00" rather than fail, because the missing
previous or current point is guarded before any arithmetic. -/
theorem speed_out_of_bounds_returns_zero (route : List RoutePoint) (i : ℤ)
    (hlen : 1 < route.length) (h : i < 0 ∨ (route.length : ℤ) ≤ i) :
    calculateSpeedKmH i route = some 0 := by
  have hne : ¬(i = 0 ∨ route.length ≤ 1) := by omega
  have hnone : jsGet route i = none := by
    rcases h with h | h
    · exact jsGet_neg route i h
    · exact jsGet_too_big route i h
  unfold calculateSpeedKmH
  rw [if_neg hne, hnone]

/-- Concrete instance of claim C10 at index -1 and at index 2 of a
two-point route. -/
theorem speed_out_of_bounds_returns_zero_witness :
    calculateSpeedKmH (-1) witnessRouteA = some 0 ∧
      calculateSpeedKmH 2 witnessRouteA = some 0 :=
  ⟨speed_out_of_bounds_returns_zero witnessRouteA (-1) (by decide) (Or.inl (by decide)),
    speed_out_of_bounds_returns_zero witnessRouteA 2 (by decide) (Or.inr (by decide))⟩

/-- Claim C7: whenever some animation frame reaches progress 1, the frame
recursion ends with exactly the target coordinate, not the last
interpolated approximation. -/
theorem animation_completes_to_exact_target (startLatLng endLatLng : LatLng)
    (duration : ℝ) (frames : List ℝ) (currentPos : LatLng)
    (h : ∃ t ∈ frames, ¬ min 1 (t / duration) < 1) :
    runFrames startLatLng endLatLng duration frames currentPos = endLatLng := by
  induction frames generalizing currentPos with
  | nil =>
    rcases h with ⟨t, ht, _⟩
    cases ht
  | cons t rest ih =>
    by_cases hp : min 1 (t / duration) < 1
    · have hframe : animateFrame startLatLng endLatLng duration t =
          ({ lat := startLatLng.lat + (endLatLng.lat - startLatLng.lat) * min 1 (t / duration),
             lng := startLatLng.lng + (endLatLng.lng - startLatLng.lng) * min 1 (t / duration) },
           true) := by
        unfold animateFrame
        rw [if_pos hp]
      rw [runFrames, hframe]
      simp only []
      apply ih
      rcases h with ⟨u, hu, hnu⟩
      rcases List.mem_cons.mp hu with rfl | hu2
      · exact absurd hp hnu
      · exact ⟨u, hu2, hnu⟩
    · have hframe : animateFrame startLatLng endLatLng duration t = (endLatLng, false) := by
        unfold animateFrame
        rw [if_neg hp]
      rw [runFrames, hframe]
      simp

/-- Concrete instance of claim C7: with duration 2000 and a frame at
elapsed time 2000, the marker ends exactly on the target. -/
theorem animation_completes_to_exact_target_witness :
    runFrames { lat := 17, lng := 78 } { lat := 18, lng := 79 } 2000 [1000, 2000]
      { lat := 17, lng := 78 } = { lat := 18, lng := 79 } :=
  animation_completes_to_exact_target { lat := 17, lng := 78 } { lat := 18, lng := 79 }
    2000 [1000, 2000] { lat := 17, lng := 78 }
    ⟨2000, by simp, by norm_num⟩

/-- Claim C8: on the first call, with no previous position recorded, the
marker effect jumps directly to the target and starts no animation. -/
theorem first_position_jumps_without_animation (markerPos position : LatLng)
    (duration : ℝ) (frames : List ℝ) :
    markerEffect none markerPos position duration frames = (position, false) := rfl
